import Mathlib

/-!
Verification development for the FloodPath acquisition/deduplication/query
pipeline (`src/app.py`).  The Python source is shallowly embedded: pure
functions become Lean functions, the per-iteration body of each scraper
thread becomes an explicit state-transition function, and the Firestore /
HTTP side effects become explicit result values.  MD5 (used only as a
content-equality digest) is abstracted as the identity on the rendered
text: equal renderings give equal digests, and distinct renderings are
treated as distinct digests (collisions are disregarded).
-/

/-- Python `str.strip()` on the character list: drop leading and trailing
whitespace.  Mirrors `date_str.strip()` / `d.strip()` in
`update_dates_collection` (src/app.py:412,419). -/
def strip_chars (l : List Char) : List Char :=
  ((l.dropWhile Char.isWhitespace).reverse.dropWhile Char.isWhitespace).reverse

/-- Python `str.strip()` lifted to `String` (ASCII whitespace; the exotic
Unicode whitespace Python additionally strips never occurs in date keys). -/
def py_strip (s : String) : String :=
  ⟨strip_chars s.data⟩

/-- One row of the water-level table as built in
`scrape_pagasa_water_level` (src/app.py:642-651).  The `timestamp` field
holds the page-reported capture time (`search_time`). -/
structure WaterReading where
  station : String
  current_wl : String
  wl_30min : String
  wl_1hr : String
  alert_level : String
  alarm_level : String
  critical_level : String
  timestamp : String
deriving DecidableEq

/-- One row of the rainfall table as built in `scrape_pagasa_rainfall`
(src/app.py:766-776).  The `timestamp` field holds the page-reported
capture time (`search_time`). -/
structure RainReading where
  station : String
  current_rf : String
  rf_30min : String
  rf_1hr : String
  rf_3hr : String
  rf_6hr : String
  rf_12hr : String
  rf_24hr : String
  timestamp : String
deriving DecidableEq

/-- Python `repr` of one string-valued dict entry, `'key': 'value'`.
Assumes the value contains no quote, backslash or non-printable character
(true of the scraped table text this code handles). -/
def py_str_field (key value : String) : String :=
  "\x27" ++ key ++ "\x27: \x27" ++ value ++ "\x27"

/-- Python `str` of a list given the renderings of its items. -/
def py_str_list (items : List String) : String :=
  "[" ++ String.intercalate (", ") items ++ "]"

/-- Python `str` of one water-level dict, keys in insertion order
(src/app.py:642-651). -/
def py_str_water_reading (r : WaterReading) : String :=
  "\x7b" ++ String.intercalate (", ")
    [py_str_field ("station") r.station,
     py_str_field ("current_wl") r.current_wl,
     py_str_field ("wl_30min") r.wl_30min,
     py_str_field ("wl_1hr") r.wl_1hr,
     py_str_field ("alert_level") r.alert_level,
     py_str_field ("alarm_level") r.alarm_level,
     py_str_field ("critical_level") r.critical_level,
     py_str_field ("timestamp") r.timestamp] ++ "\x7d"

/-- Python `str` of a rainfall dict, keys in insertion order
(src/app.py:766-776). -/
def py_str_rain_reading (r : RainReading) : String :=
  "\x7b" ++ String.intercalate (", ")
    [py_str_field ("station") r.station,
     py_str_field ("current_rf") r.current_rf,
     py_str_field ("rf_30min") r.rf_30min,
     py_str_field ("rf_1hr") r.rf_1hr,
     py_str_field ("rf_3hr") r.rf_3hr,
     py_str_field ("rf_6hr") r.rf_6hr,
     py_str_field ("rf_12hr") r.rf_12hr,
     py_str_field ("rf_24hr") r.rf_24hr,
     py_str_field ("timestamp") r.timestamp] ++ "\x7d"

/-- Python `str(data)` for the water-level snapshot list. -/
def py_str_water_data (data : List WaterReading) : String :=
  py_str_list (data.map py_str_water_reading)

/-- Python `str(data)` for the rainfall snapshot list. -/
def py_str_rain_data (data : List RainReading) : String :=
  py_str_list (data.map py_str_rain_reading)

/-- `calculate_data_hash` (src/app.py:403-406):
`hashlib.md5(str(data).encode()).hexdigest()`.  MD5 is modelled as the
identity on the rendered text `str(data)`: the digest of equal texts is
equal, and digests of distinct texts are treated as distinct (MD5
collisions are disregarded, as the source intends this hash purely as a
content-equality fingerprint). -/
def calculate_data_hash (rendered : String) : String :=
  rendered

/-- Numeric value of a decimal digit character. -/
def digit_val (c : Char) : ℕ :=
  c.toNat - 48

/-- Gregorian leap-year rule, as used by Python `datetime`. -/
def is_leap (y : ℕ) : Bool :=
  y % 4 = 0 && (y % 100 ≠ 0 || y % 400 = 0)

/-- Days in a month, as validated by the Python `datetime` constructor. -/
def days_in_month (y m : ℕ) : ℕ :=
  if m = 2 then (if is_leap y then 29 else 28)
  else if m = 4 ∨ m = 6 ∨ m = 9 ∨ m = 11 then 30
  else 31

/-- CPython `strptime` `%m` matcher: regex `1[0-2]|0[1-9]|[1-9]` applied at
the head of the character list; returns the month value and the rest.
Greedy two-digit consumption agrees with the regex because a shorter
alternative would require the following literal to be a digit. -/
def take_month : List Char → Option (ℕ × List Char)
  | '1' :: c :: rest =>
      if c = '0' ∨ c = '1' ∨ c = '2' then some (10 + digit_val c, rest)
      else some (1, c :: rest)
  | '0' :: c :: rest =>
      if '1' ≤ c ∧ c ≤ '9' then some (digit_val c, rest) else none
  | c :: rest =>
      if '1' ≤ c ∧ c ≤ '9' then some (digit_val c, rest) else none
  | [] => none

/-- CPython `strptime` `%d` matcher: regex `3[01]|[12]\d|0[1-9]|[1-9]`. -/
def take_day : List Char → Option (ℕ × List Char)
  | '3' :: c :: rest =>
      if c = '0' ∨ c = '1' then some (30 + digit_val c, rest)
      else some (3, c :: rest)
  | '0' :: c :: rest =>
      if '1' ≤ c ∧ c ≤ '9' then some (digit_val c, rest) else none
  | c :: c2 :: rest =>
      if (c = '1' ∨ c = '2') ∧ c2.isDigit then
        some (10 * digit_val c + digit_val c2, rest)
      else if '1' ≤ c ∧ c ≤ '9' then some (digit_val c, c2 :: rest)
      else none
  | [c] =>
      if '1' ≤ c ∧ c ≤ '9' then some (digit_val c, []) else none
  | [] => none

/-- CPython `strptime` `%H` matcher: regex `2[0-3]|[0-1]\d|\d`. -/
def take_hour : List Char → Option (ℕ × List Char)
  | '2' :: c :: rest =>
      if c = '0' ∨ c = '1' ∨ c = '2' ∨ c = '3' then some (20 + digit_val c, rest)
      else some (2, c :: rest)
  | c :: c2 :: rest =>
      if (c = '0' ∨ c = '1') ∧ c2.isDigit then
        some (10 * digit_val c + digit_val c2, rest)
      else if c.isDigit then some (digit_val c, c2 :: rest)
      else none
  | [c] => if c.isDigit then some (digit_val c, []) else none
  | [] => none

/-- CPython `strptime` `%M` matcher: regex `[0-5]\d|\d`. -/
def take_minute : List Char → Option (ℕ × List Char)
  | c :: c2 :: rest =>
      if ('0' ≤ c ∧ c ≤ '5') ∧ c2.isDigit then
        some (10 * digit_val c + digit_val c2, rest)
      else if c.isDigit then some (digit_val c, c2 :: rest)
      else none
  | [c] => if c.isDigit then some (digit_val c, []) else none
  | [] => none

/-- `datetime.strptime(date, "%Y-%m-%d")` succeeds: exactly four year
digits, a literal dash, `%m`, a dash, `%d`, end of string (CPython raises
`ValueError` on unconverted trailing text), then the `datetime`
constructor checks `MINYEAR <= year` and day-of-month validity.  Used by
`WaterLevelData.get` (src/app.py:824-830) and `RainfallData.get`
(src/app.py:875-881). -/
def valid_date (s : String) : Bool :=
  match s.data with
  | y1 :: y2 :: y3 :: y4 :: '-' :: rest =>
    if y1.isDigit ∧ y2.isDigit ∧ y3.isDigit ∧ y4.isDigit then
      match take_month rest with
      | some (m, '-' :: r2) =>
        match take_day r2 with
        | some (d, []) =>
          let y := 1000 * digit_val y1 + 100 * digit_val y2 +
                   10 * digit_val y3 + digit_val y4
          decide (1 ≤ y) && decide (d ≤ days_in_month y m)
        | _ => false
      | _ => false
    else false
  | _ => false

/-- `datetime.strptime(timestamp, "%Y-%m-%d %H:%M")` succeeds, returning
the parsed (year, month, day).  The single space of the format matches a
nonempty whitespace run (CPython replaces format whitespace by `\s+`).
Used by `save_to_firebase` (src/app.py:442-446). -/
def parse_timestamp (s : String) : Option (ℕ × ℕ × ℕ) :=
  match s.data with
  | y1 :: y2 :: y3 :: y4 :: '-' :: rest =>
    if y1.isDigit ∧ y2.isDigit ∧ y3.isDigit ∧ y4.isDigit then
      match take_month rest with
      | some (m, '-' :: r2) =>
        match take_day r2 with
        | some (d, c :: r3) =>
          if c.isWhitespace then
            match take_hour (r3.dropWhile Char.isWhitespace) with
            | some (_, ':' :: r4) =>
              match take_minute r4 with
              | some (_, []) =>
                let y := 1000 * digit_val y1 + 100 * digit_val y2 +
                         10 * digit_val y3 + digit_val y4
                if 1 ≤ y ∧ d ≤ days_in_month y m then some (y, m, d) else none
              | _ => none
            | _ => none
          else none
        | _ => none
      | _ => none
    else none
  | _ => none

/-- Zero-padded two-digit rendering (`strftime` `%m` / `%d`). -/
def pad2 (n : ℕ) : String :=
  if n < 10 then "0" ++ toString n else toString n

/-- Zero-padded four-digit rendering (`strftime` `%Y`). -/
def pad4 (n : ℕ) : String :=
  if n < 10 then "000" ++ toString n
  else if n < 100 then "00" ++ toString n
  else if n < 1000 then "0" ++ toString n
  else toString n

/-- `date_obj.strftime("%Y-%m-%d")`. -/
def strftime_Ymd (y m d : ℕ) : String :=
  pad4 y ++ "-" ++ pad2 m ++ "-" ++ pad2 d

/-- The `date_str` computed at the top of `save_to_firebase`
(src/app.py:441-446): the date part of the snapshot timestamp if it parses
as `%Y-%m-%d %H:%M`, else today's wall-clock date (`today` parameter). -/
def firebase_date_str (timestamp today : String) : String :=
  match parse_timestamp timestamp with
  | some (y, m, d) => strftime_Ymd y m d
  | none => today

/-- `update_dates_collection` (src/app.py:408-435) as a pure function on
the stored `dates` array: strip the new date, strip every stored date; if
the stripped date is already present the array of dates is left as the
stripped originals, otherwise it is appended and the array re-sorted
descending (`dates.sort(reverse=True)`); a missing document starts a
fresh one-element array.  The Firestore document write itself and its
`SERVER_TIMESTAMP` field are not modelled beyond the resulting array. -/
def update_dates_collection (existing : Option (List String)) (date_str : String) :
    List String :=
  let d := py_strip date_str
  match existing with
  | none => [d]
  | some ds =>
    let stripped := ds.map py_strip
    if d ∈ stripped then stripped
    else (stripped ++ [d]).mergeSort (fun a b => decide (b ≤ a))

/-- One Persistence Gateway write performed by `save_to_firebase`
(src/app.py:437-477): the date-partitioned `latest` document, the main
collection `latest` document, and the `all_dates` index document. -/
inductive PersistWrite where
  | putDatedDoc (collection : String)
  | putLatestDoc (collection : String)
  | setDatesDoc (collection : String) (dates : List String)
deriving DecidableEq

/-- `save_to_firebase` (src/app.py:437-477) as the list of Firestore
writes it performs, in order.  `dates_doc` is the current content of the
`all_dates` index document (`None` if absent).  The per-item
`firebase_timestamp` deletion is a no-op here because the scraped rows
never carry that key; the `SERVER_TIMESTAMP` fields and the document
payloads are not modelled beyond the dates array. -/
def save_to_firebase (collection_name search_time today : String)
    (dates_doc : Option (List String)) : List PersistWrite :=
  let date_str := firebase_date_str search_time today
  [PersistWrite.putDatedDoc (collection_name ++ "_" ++ date_str),
   PersistWrite.putLatestDoc collection_name,
   PersistWrite.setDatesDoc collection_name (update_dates_collection dates_doc date_str)]

/-- The module-level mutable state of src/app.py:129-137 plus the two
per-thread `consecutive_failures` locals (src/app.py:572,696).  Note that
`last_updated` is a single global shared by both feeds, while the data,
hash and failure counters are per-feed. -/
structure GlobalState where
  latest_water_data : Option (List WaterReading)
  latest_rainfall_data : Option (List RainReading)
  last_updated : Option String
  last_water_hash : Option String
  last_rainfall_hash : Option String
  water_failures : ℕ
  rain_failures : ℕ
deriving DecidableEq

/-- The sleep ending a scraper iteration: the linear-backoff sleep of the
failure paths, or the 5-minute-grid sleep of src/app.py:688-690 (duration
5 minutes minus elapsed time, not modelled numerically). -/
inductive SleepKind where
  | backoff (seconds : ℕ)
  | tick
deriving DecidableEq

/-- `max_failures` (src/app.py:573,697). -/
def max_failures : ℕ := 5

/-- The backoff duration `60 * min(consecutive_failures, max_failures)`
slept on every failure path (src/app.py:583,627,656,680 and the rainfall
twins). -/
def backoff_seconds (consecutive_failures : ℕ) : ℕ :=
  60 * min consecutive_failures max_failures

/-- One iteration of the `scrape_pagasa_water_level` loop body
(src/app.py:575-690) after the browser work: `acq = none` models any
acquisition failure (webdriver init failure, navigation exception after
retries, missing table), `acq = some (data, search_time)` a successful
render scraped into `data` rows with page-reported time `search_time`.
Returns the new global state, the Firestore writes performed, and the
ending sleep.  `today` is the wall-clock date used by the
`save_to_firebase` fallback; `dates_doc` the current dates index. -/
def scrape_water_iteration (g : GlobalState)
    (acq : Option (List WaterReading × String)) (today : String)
    (dates_doc : Option (List String)) :
    GlobalState × List PersistWrite × SleepKind :=
  match acq with
  | none =>
      ({ g with water_failures := g.water_failures + 1 }, [],
       SleepKind.backoff (backoff_seconds (g.water_failures + 1)))
  | some (data, search_time) =>
      if data = [] then
        ({ g with water_failures := g.water_failures + 1 }, [],
         SleepKind.backoff (backoff_seconds (g.water_failures + 1)))
      else
        let new_hash := calculate_data_hash (py_str_water_data data)
        if g.last_water_hash ≠ some new_hash then
          ({ g with latest_water_data := some data,
                    last_updated := some search_time,
                    last_water_hash := some new_hash,
                    water_failures := 0 },
           save_to_firebase ("water_levels") search_time today dates_doc,
           SleepKind.tick)
        else
          ({ g with water_failures := 0 }, [], SleepKind.tick)

/-- One iteration of the `scrape_pagasa_rainfall` loop body
(src/app.py:699-815), mirroring `scrape_water_iteration`. -/
def scrape_rainfall_iteration (g : GlobalState)
    (acq : Option (List RainReading × String)) (today : String)
    (dates_doc : Option (List String)) :
    GlobalState × List PersistWrite × SleepKind :=
  match acq with
  | none =>
      ({ g with rain_failures := g.rain_failures + 1 }, [],
       SleepKind.backoff (backoff_seconds (g.rain_failures + 1)))
  | some (data, search_time) =>
      if data = [] then
        ({ g with rain_failures := g.rain_failures + 1 }, [],
         SleepKind.backoff (backoff_seconds (g.rain_failures + 1)))
      else
        let new_hash := calculate_data_hash (py_str_rain_data data)
        if g.last_rainfall_hash ≠ some new_hash then
          ({ g with latest_rainfall_data := some data,
                    last_updated := some search_time,
                    last_rainfall_hash := some new_hash,
                    rain_failures := 0 },
           save_to_firebase ("rainfall_data") search_time today dates_doc,
           SleepKind.tick)
        else
          ({ g with rain_failures := 0 }, [], SleepKind.tick)

/-- N consecutive failing water iterations (every acquisition fails):
the state after them and the backoff sleep of the last one. -/
def failing_water_iterations (g : GlobalState) : ℕ → GlobalState × Option SleepKind
  | 0 => (g, none)
  | n + 1 =>
      let g' := (failing_water_iterations g n).1
      let r := scrape_water_iteration g' none ("2024-01-01") none
      (r.1, some r.2.2)

/-- Result of a rate-limited data GET (src/app.py:817-917), carrying the
response body fields the claims inspect. -/
inductive GetResult (α : Type) where
  | success (data : α) (last_updated : Option String)
  | badRequest (message : String)
  | notFound (message : String)
  | unavailable (message : String)
deriving DecidableEq

/-- The HTTP status code paired with each response shape in
`WaterLevelData.get` / `RainfallData.get`. -/
def http_code {α : Type} : GetResult α → ℕ
  | GetResult.success _ _ => 200
  | GetResult.badRequest _ => 400
  | GetResult.notFound _ => 404
  | GetResult.unavailable _ => 503

/-- `WaterLevelData.get` (src/app.py:817-866): optional `date` query
parameter, the Firestore collection lookup as a map from collection name
to a stored `(data, last_updated)` document, and the module-level latest
cache.  The internal-error (500) handler is unreachable in this pure
model and omitted. -/
def water_level_get (dateParam : Option String)
    (store : String → Option (List WaterReading × String))
    (latest : Option (List WaterReading)) (last_upd : Option String) :
    GetResult (List WaterReading) :=
  match dateParam with
  | some date =>
      if valid_date date then
        match store ("water_levels_" ++ date) with
        | some (data, lu) => GetResult.success data (some lu)
        | none => GetResult.notFound ("No data available for date " ++ date)
      else GetResult.badRequest ("Invalid date format. Please use YYYY-MM-DD")
  | none =>
      match latest with
      | none => GetResult.unavailable ("Water level data not available yet")
      | some data => GetResult.success data last_upd

/-- `RainfallData.get` (src/app.py:868-917), mirroring
`water_level_get` over the `rainfall_data_*` collections. -/
def rainfall_get (dateParam : Option String)
    (store : String → Option (List RainReading × String))
    (latest : Option (List RainReading)) (last_upd : Option String) :
    GetResult (List RainReading) :=
  match dateParam with
  | some date =>
      if valid_date date then
        match store ("rainfall_data_" ++ date) with
        | some (data, lu) => GetResult.success data (some lu)
        | none => GetResult.notFound ("No data available for date " ++ date)
      else GetResult.badRequest ("Invalid date format. Please use YYYY-MM-DD")
  | none =>
      match latest with
      | none => GetResult.unavailable ("Rainfall data not available yet")
      | some data => GetResult.success data last_upd

/-- One rolling window of the rate limiter: `{'count': ..,
'window_start': ..}` (src/app.py:79-81).  `time.time()` is modelled in
whole seconds (ℤ); the limiter only compares elapsed time against the
integer thresholds 60 and 3600. -/
structure WindowCounter where
  count : ℕ
  window_start : ℤ
deriving DecidableEq

/-- Per-caller rate-limit state: the minute and hour windows
(src/app.py:78-82). -/
structure ClientState where
  minute : WindowCounter
  hour : WindowCounter
deriving DecidableEq

/-- Outcome of one request through the `rate_limit` decorator: passed
through to the handler, or rejected with HTTP 429. -/
inductive RateDecision where
  | allowed
  | rejected429
deriving DecidableEq

/-- `RATE_LIMIT['requests_per_minute']` (src/app.py:63-66). -/
def requests_per_minute : ℕ := 100

/-- `RATE_LIMIT['requests_per_hour']` (src/app.py:63-66). -/
def requests_per_hour : ℕ := 1000

/-- The `# Increment counters` block (src/app.py:102-104). -/
def increment_counts (s : ClientState) : ClientState :=
  ⟨⟨s.minute.count + 1, s.minute.window_start⟩,
   ⟨s.hour.count + 1, s.hour.window_start⟩⟩

/-- The hour-limit phase of `rate_limit` (src/app.py:93-104): reset the
hour window if more than 3600 s elapsed, otherwise reject once the hour
count has reached the limit; an accepted request increments both
counters. -/
def hour_phase (s : ClientState) (t : ℤ) : RateDecision × ClientState :=
  if 3600 < t - s.hour.window_start then
    (RateDecision.allowed, increment_counts { s with hour := ⟨0, t⟩ })
  else if requests_per_hour ≤ s.hour.count then
    (RateDecision.rejected429, s)
  else
    (RateDecision.allowed, increment_counts s)

/-- One request through the `rate_limit` decorator for one caller
(src/app.py:71-107): reset the minute window if more than 60 s elapsed
(skipping the minute-limit check), otherwise reject once the minute count
has reached the limit; then the hour phase. -/
def rate_limit_step (s : ClientState) (t : ℤ) : RateDecision × ClientState :=
  if 60 < t - s.minute.window_start then
    hour_phase { s with minute := ⟨0, t⟩ } t
  else if requests_per_minute ≤ s.minute.count then
    (RateDecision.rejected429, s)
  else
    hour_phase s t

/-- Fresh per-caller state created for a first-seen address at time `t`
(src/app.py:77-82). -/
def init_client (t : ℤ) : ClientState :=
  ⟨⟨0, t⟩, ⟨0, t⟩⟩

/-- Process a sequence of requests at the given times, returning the
decisions in order and the final state. -/
def processList (s : ClientState) : List ℤ → List RateDecision × ClientState
  | [] => ([], s)
  | t :: ts =>
      let r := rate_limit_step s t
      let rest := processList r.2 ts
      (r.1 :: rest.1, rest.2)

/-- Input to the health check (src/app.py:1032-1079): the global run
flag, the shared `last_updated` timestamp (already parsed, in seconds)
and the current time, and the liveness of both scraper threads.
A `last_updated` string that fails to parse (500 branch) is outside this
model. -/
structure HealthInput where
  scraping_active : Bool
  last_updated : Option ℤ
  now : ℤ
  water_thread_alive : Bool
  rainfall_thread_alive : Bool
deriving DecidableEq

/-- The `status` field of the health response. -/
inductive HealthStatus where
  | healthy
  | warning
  | error
deriving DecidableEq

/-- `health_check` (src/app.py:1032-1079) reduced to the reported status
and HTTP code: 503 `error` when the run flag is cleared; `warning` when a
`last_updated` exists and is more than 600 s old; otherwise `healthy`.
The response also echoes the thread-liveness booleans, but they never
influence the status. -/
def health_check (h : HealthInput) : HealthStatus × ℕ :=
  if h.scraping_active = false then (HealthStatus.error, 503)
  else
    match h.last_updated with
    | some t => if 600 < h.now - t then (HealthStatus.warning, 200)
                else (HealthStatus.healthy, 200)
    | none => (HealthStatus.healthy, 200)

/-- A sample scraped water-level row. -/
def sampleReadingA : WaterReading :=
  ⟨"Nangka", "15.20", "15.10", "15.05", "16.00", "17.00", "18.00",
   "2024-01-05 10:00"⟩

/-- The same row re-scraped five minutes later: every field equal except
the capture timestamp. -/
def sampleReadingA2 : WaterReading :=
  { sampleReadingA with timestamp := "2024-01-05 10:05" }

/-- A sample scraped rainfall row. -/
def sampleRain : RainReading :=
  ⟨"Aries", "0.0", "0.2", "0.4", "1.0", "2.0", "3.0", "4.0",
   "2024-01-05 10:00"⟩

/-- Process state everywhere empty (process start). -/
def fresh_state : GlobalState :=
  ⟨none, none, none, none, none, 0, 0⟩

/-- Process state whose water feed has accepted `[sampleReadingA]`. -/
def g0 : GlobalState :=
  ⟨some [sampleReadingA], none, some ("2024-01-05 10:00"),
   some (calculate_data_hash (py_str_water_data [sampleReadingA])), none, 0, 0⟩

/-- Process state whose rainfall feed has accepted `[sampleRain]` and
whose water feed has not yet accepted anything. -/
def g1 : GlobalState :=
  ⟨none, some [sampleRain], some ("2024-01-05 10:00"), none,
   some (calculate_data_hash (py_str_rain_data [sampleRain])), 0, 0⟩

/-! Helper lemmas about `dropWhile`, used to reason about Python
`str.strip()`. -/

theorem dropWhile_self_idem {α : Type} (p : α → Bool) (l : List α) :
    (l.dropWhile p).dropWhile p = l.dropWhile p := by
  induction l with
  | nil => rfl
  | cons a t ih =>
      by_cases h : p a
      · simp [List.dropWhile_cons, h, ih]
      · simp [List.dropWhile_cons, h]

theorem head_of_dropWhile_false {α : Type} (p : α → Bool) (l : List α) (c : α)
    (t' : List α) (h : l.dropWhile p = c :: t') : p c = false := by
  induction l with
  | nil => simp [List.dropWhile] at h
  | cons a t ih =>
      rw [List.dropWhile_cons] at h
      by_cases ha : p a
      · rw [if_pos ha] at h; exact ih h
      · rw [if_neg ha] at h
        injection h with h1 _
        subst h1
        simpa using ha

theorem getLast?_of_dropWhile {α : Type} (p : α → Bool) (l : List α)
    (h : l.dropWhile p ≠ []) : (l.dropWhile p).getLast? = l.getLast? := by
  induction l with
  | nil => simp at h
  | cons a t ih =>
      rw [List.dropWhile_cons] at h ⊢
      by_cases ha : p a
      · rw [if_pos ha] at h ⊢
        cases t with
        | nil => simp [List.dropWhile] at h
        | cons b t2 => rw [List.getLast?_cons_cons]; exact ih h
      · rw [if_neg ha]

theorem dropWhile_eq_self_of_head {α : Type} (p : α → Bool) (l : List α)
    (h : ∀ c t', l = c :: t' → p c = false) : l.dropWhile p = l := by
  cases l with
  | nil => rfl
  | cons a t => rw [List.dropWhile_cons, if_neg (by simp [h a t rfl])]

theorem strip_chars_idem (l : List Char) :
    strip_chars (strip_chars l) = strip_chars l := by
  unfold strip_chars
  have h1 : (((l.dropWhile Char.isWhitespace).reverse.dropWhile
        Char.isWhitespace).reverse).dropWhile Char.isWhitespace =
      ((l.dropWhile Char.isWhitespace).reverse.dropWhile Char.isWhitespace).reverse := by
    apply dropWhile_eq_self_of_head
    intro c t' hct
    have hBne : (l.dropWhile Char.isWhitespace).reverse.dropWhile Char.isWhitespace ≠ [] := by
      intro h0
      rw [h0] at hct
      simp at hct
    have hg : ((l.dropWhile Char.isWhitespace).reverse.dropWhile
        Char.isWhitespace).getLast? = some c := by
      rw [← List.head?_reverse, hct]
      rfl
    rw [getLast?_of_dropWhile _ _ hBne, List.getLast?_reverse] at hg
    cases hA : l.dropWhile Char.isWhitespace with
    | nil => rw [hA] at hg; simp at hg
    | cons c0 t0 =>
        rw [hA] at hg
        simp only [List.head?_cons, Option.some.injEq] at hg
        subst hg
        exact head_of_dropWhile_false Char.isWhitespace l c0 t0 hA
  rw [h1, List.reverse_reverse, dropWhile_self_idem]

theorem py_strip_idem (s : String) : py_strip (py_strip s) = py_strip s := by
  unfold py_strip
  simp [strip_chars_idem]

/-! Facts about `update_dates_collection`. -/

theorem update_dates_all_stripped (existing : Option (List String)) (date_str : String) :
    ∀ x ∈ update_dates_collection existing date_str, py_strip x = x := by
  intro x hx
  cases existing with
  | none =>
      simp only [update_dates_collection, List.mem_singleton] at hx
      subst hx
      exact py_strip_idem _
  | some ds =>
      simp only [update_dates_collection] at hx
      by_cases hmem : py_strip date_str ∈ ds.map py_strip
      · rw [if_pos hmem] at hx
        obtain ⟨y, _, rfl⟩ := List.mem_map.mp hx
        exact py_strip_idem y
      · rw [if_neg hmem] at hx
        have hx2 := (List.mergeSort_perm _ _).mem_iff.mp hx
        rcases List.mem_append.mp hx2 with h | h
        · obtain ⟨y, _, rfl⟩ := List.mem_map.mp h
          exact py_strip_idem y
        · rw [List.mem_singleton] at h
          subst h
          exact py_strip_idem _

theorem map_py_strip_update (existing : Option (List String)) (date_str : String) :
    (update_dates_collection existing date_str).map py_strip =
      update_dates_collection existing date_str := by
  have h := update_dates_all_stripped existing date_str
  calc (update_dates_collection existing date_str).map py_strip
      = (update_dates_collection existing date_str).map id :=
        List.map_congr_left h
    _ = update_dates_collection existing date_str := List.map_id _

theorem mem_update_dates (existing : Option (List String)) (date_str : String) :
    py_strip date_str ∈ update_dates_collection existing date_str := by
  cases existing with
  | none => simp [update_dates_collection]
  | some ds =>
      simp only [update_dates_collection]
      by_cases hmem : py_strip date_str ∈ ds.map py_strip
      · rw [if_pos hmem]; exact hmem
      · rw [if_neg hmem]
        exact (List.mergeSort_perm _ _).mem_iff.mpr (by simp)

theorem count_update_dates (existing : Option (List String)) (date_str : String)
    (hcount : ((existing.getD []).map py_strip).count (py_strip date_str) ≤ 1) :
    (update_dates_collection existing date_str).count (py_strip date_str) = 1 := by
  cases existing with
  | none => simp [update_dates_collection]
  | some ds =>
      simp only [Option.getD_some] at hcount
      simp only [update_dates_collection]
      by_cases hmem : py_strip date_str ∈ ds.map py_strip
      · rw [if_pos hmem]
        have h1 : 0 < (ds.map py_strip).count (py_strip date_str) :=
          List.count_pos_iff.mpr hmem
        omega
      · rw [if_neg hmem]
        rw [(List.mergeSort_perm _ _).count_eq, List.count_append,
            List.count_eq_zero.mpr hmem]
        simp

/-! Rate-limiter lemmas. -/

theorem rate_limit_step_allowed (c : ℕ) (t0 t : ℤ)
    (hmin : ¬ (60 < t - t0)) (hc : c < 100) :
    rate_limit_step ⟨⟨c, t0⟩, ⟨c, t0⟩⟩ t =
      (RateDecision.allowed, ⟨⟨c + 1, t0⟩, ⟨c + 1, t0⟩⟩) := by
  have hh : ¬ ((3600:ℤ) < t - t0) := by omega
  have hm : ¬ (requests_per_minute ≤ c) := by simp [requests_per_minute]; omega
  have hhr : ¬ (requests_per_hour ≤ c) := by simp [requests_per_hour]; omega
  simp [rate_limit_step, hour_phase, increment_counts, hmin, hh, hm, hhr]

theorem processList_in_window (t0 : ℤ) (ts : List ℤ) :
    ∀ (c : ℕ), (∀ t ∈ ts, ¬ (60 < t - t0)) → c + ts.length ≤ 100 →
      processList ⟨⟨c, t0⟩, ⟨c, t0⟩⟩ ts =
        (List.replicate ts.length RateDecision.allowed,
         ⟨⟨c + ts.length, t0⟩, ⟨c + ts.length, t0⟩⟩) := by
  induction ts with
  | nil => intro c _ _; simp [processList]
  | cons t ts ih =>
      intro c h hc
      have ht := h t (List.mem_cons_self _ _)
      have hlen : c + (t :: ts).length ≤ 100 := hc
      have hstep := rate_limit_step_allowed c t0 t ht (by simp at hlen; omega)
      simp only [processList, hstep]
      rw [ih (c + 1) (fun x hx => h x (List.mem_cons_of_mem _ hx))
            (by simp at hlen ⊢; omega)]
      have harith : c + 1 + ts.length = c + (ts.length + 1) := by omega
      simp [List.replicate_succ, harith]

theorem rate_limit_minute_reject (s : ClientState) (t : ℤ)
    (h1 : ¬ (60 < t - s.minute.window_start))
    (h2 : requests_per_minute ≤ s.minute.count) :
    rate_limit_step s t = (RateDecision.rejected429, s) := by
  simp [rate_limit_step, h1, h2]

/-- C3: for every caller, 100 in-window requests from a fresh window are
all allowed and leave both counters at 100; the 101st request still
inside the 60-second window is rejected with 429 (state untouched); a
request more than 60 seconds after the window start is allowed again with
the minute counter reset; the limits are 100/minute and 1000/hour, and
reaching either inside its window rejects with 429. -/
theorem c3_rate_limit_window (t0 t101 t102 : ℤ) (ts : List ℤ)
    (hlen : ts.length = 100)
    (hts : ∀ t ∈ ts, ¬ (60 < t - t0))
    (h101 : ¬ (60 < t101 - t0))
    (h102a : 60 < t102 - t0) (h102b : ¬ (3600 < t102 - t0)) :
    requests_per_minute = 100 ∧ requests_per_hour = 1000 ∧
    processList (init_client t0) ts =
      (List.replicate 100 RateDecision.allowed, ⟨⟨100, t0⟩, ⟨100, t0⟩⟩) ∧
    rate_limit_step ⟨⟨100, t0⟩, ⟨100, t0⟩⟩ t101 =
      (RateDecision.rejected429, ⟨⟨100, t0⟩, ⟨100, t0⟩⟩) ∧
    rate_limit_step ⟨⟨100, t0⟩, ⟨100, t0⟩⟩ t102 =
      (RateDecision.allowed, ⟨⟨1, t102⟩, ⟨101, t0⟩⟩) ∧
    (∀ s t, ¬ (60 < t - s.minute.window_start) →
      requests_per_minute ≤ s.minute.count →
      (rate_limit_step s t).1 = RateDecision.rejected429) ∧
    (∀ s t, s.minute.count < requests_per_minute →
      ¬ (3600 < t - s.hour.window_start) → requests_per_hour ≤ s.hour.count →
      (rate_limit_step s t).1 = RateDecision.rejected429) := by
  refine ⟨rfl, rfl, ?_, ?_, ?_, ?_, ?_⟩
  · have h := processList_in_window t0 ts 0 hts (by omega)
    rw [hlen] at h
    simpa [init_client] using h
  · exact rate_limit_minute_reject ⟨⟨100, t0⟩, ⟨100, t0⟩⟩ t101 h101 (by simp [requests_per_minute])
  · have hhr : ¬ (requests_per_hour ≤ 100) := by simp [requests_per_hour]
    simp [rate_limit_step, hour_phase, increment_counts, h102a, h102b, hhr]
  · intro s t h1 h2
    rw [rate_limit_minute_reject s t h1 h2]
  · intro s t hm h1 h2
    have hm' : ¬ (requests_per_minute ≤ s.minute.count) := by omega
    by_cases he : 60 < t - s.minute.window_start
    · simp [rate_limit_step, hour_phase, he, h1, h2]
    · simp [rate_limit_step, hour_phase, he, hm', h1, h2]

/-- Witness for C3 at concrete inputs: window start 0, a burst of 100
requests at time 0, the 101st at time 30 rejected, a request at time 61
allowed again with the minute counter reset. -/
theorem c3_rate_limit_window_witness :
    processList (init_client 0) (List.replicate 100 (0:ℤ)) =
      (List.replicate 100 RateDecision.allowed, ⟨⟨100, 0⟩, ⟨100, 0⟩⟩) ∧
    rate_limit_step ⟨⟨100, 0⟩, ⟨100, 0⟩⟩ 30 =
      (RateDecision.rejected429, ⟨⟨100, 0⟩, ⟨100, 0⟩⟩) ∧
    rate_limit_step ⟨⟨100, 0⟩, ⟨100, 0⟩⟩ 61 =
      (RateDecision.allowed, ⟨⟨1, 61⟩, ⟨101, 0⟩⟩) := by
  have h := c3_rate_limit_window 0 30 61 (List.replicate 100 (0:ℤ))
    (by simp) (by intro t ht; rw [List.eq_of_mem_replicate ht]; omega)
    (by omega) (by omega) (by omega)
  exact ⟨h.2.2.1, h.2.2.2.1, h.2.2.2.2.1⟩

/-- C10 (as stated) is false: a request rejected by the hour limit can
change the caller's stored state, because a minute window that has
already elapsed is reset before the hour check runs.  Concretely, with
minute window `(count 100, start 600)` and hour window `(count 1000,
start 0)`, a request at t = 661 is rejected with 429 yet the minute
window becomes `(count 0, start 661)`. -/
theorem c10_reject_counterexample :
    (rate_limit_step ⟨⟨100, 600⟩, ⟨1000, 0⟩⟩ 661).1 = RateDecision.rejected429 ∧
    (rate_limit_step ⟨⟨100, 600⟩, ⟨1000, 0⟩⟩ 661).2 ≠ ⟨⟨100, 600⟩, ⟨1000, 0⟩⟩ := by
  decide

/-- C10 amended: a request rejected with 429 never increments either
counter and never touches the hour window; when the minute window has not
elapsed the whole state is left exactly unchanged (in particular every
minute-limit rejection leaves the state unchanged); the only state change
a rejection can make is the minute-window reset performed before an
hour-limit rejection. -/
theorem c10_reject_amended (s : ClientState) (t : ℤ)
    (h : (rate_limit_step s t).1 = RateDecision.rejected429) :
    (rate_limit_step s t).2.hour = s.hour ∧
    (rate_limit_step s t).2.minute.count ≤ s.minute.count ∧
    ((rate_limit_step s t).2.minute = s.minute ∨
      (rate_limit_step s t).2.minute = ⟨0, t⟩) ∧
    (¬ (60 < t - s.minute.window_start) → (rate_limit_step s t).2 = s) := by
  by_cases h1 : 60 < t - s.minute.window_start
  · by_cases h2 : 3600 < t - s.hour.window_start
    · simp [rate_limit_step, hour_phase, h1, h2, increment_counts] at h
    · by_cases h3 : requests_per_hour ≤ s.hour.count
      · refine ⟨?_, ?_, ?_, fun hn => absurd h1 hn⟩ <;>
          simp [rate_limit_step, hour_phase, h1, h2, h3]
      · simp [rate_limit_step, hour_phase, h1, h2, h3, increment_counts] at h
  · by_cases h2 : requests_per_minute ≤ s.minute.count
    · simp [rate_limit_step, h1, h2]
    · by_cases h3 : 3600 < t - s.hour.window_start
      · simp [rate_limit_step, hour_phase, h1, h2, h3, increment_counts] at h
      · by_cases h4 : requests_per_hour ≤ s.hour.count
        · simp [rate_limit_step, hour_phase, h1, h2, h3, h4]
        · simp [rate_limit_step, hour_phase, h1, h2, h3, h4, increment_counts] at h

/-- Witness for the amended C10: a minute-limit rejection at concrete
input leaves the state exactly unchanged. -/
theorem c10_reject_amended_witness :
    (rate_limit_step ⟨⟨100, 0⟩, ⟨100, 0⟩⟩ 30).2 = ⟨⟨100, 0⟩, ⟨100, 0⟩⟩ :=
  (c10_reject_amended ⟨⟨100, 0⟩, ⟨100, 0⟩⟩ 30 (by decide)).2.2.2 (by decide)

/-- After n consecutive failing water iterations, the
`consecutive_failures` counter has grown by n. -/
theorem failing_water_failures (g : GlobalState) (n : ℕ) :
    (failing_water_iterations g n).1.water_failures = g.water_failures + n := by
  induction n with
  | zero => rfl
  | succ m ih =>
      simp only [failing_water_iterations, scrape_water_iteration]
      omega

/-- C4: starting from a zero failure counter, the backoff slept after the
Nth consecutive acquisition failure is `60 * min N 5` seconds: `60 * N`
for N at most 5, and capped at 300 seconds for every N at least 5. -/
theorem c4_backoff_linear_capped (g : GlobalState) (N : ℕ)
    (h0 : g.water_failures = 0) (hN : 1 ≤ N) :
    (failing_water_iterations g N).2 = some (SleepKind.backoff (60 * min N 5)) ∧
    (N ≤ 5 → (failing_water_iterations g N).2 = some (SleepKind.backoff (60 * N))) ∧
    (5 ≤ N → (failing_water_iterations g N).2 = some (SleepKind.backoff 300)) := by
  obtain ⟨m, rfl⟩ : ∃ m, N = m + 1 := ⟨N - 1, by omega⟩
  have hmain : (failing_water_iterations g (m + 1)).2 =
      some (SleepKind.backoff (backoff_seconds (m + 1))) := by
    simp only [failing_water_iterations, scrape_water_iteration]
    rw [failing_water_failures g m, h0]
    simp
  refine ⟨?_, fun h5 => ?_, fun h5 => ?_⟩
  · simpa [backoff_seconds, max_failures] using hmain
  · rw [hmain]
    have : backoff_seconds (m + 1) = 60 * (m + 1) := by
      simp [backoff_seconds, max_failures]
      omega
    rw [this]
  · rw [hmain]
    have : backoff_seconds (m + 1) = 300 := by
      simp [backoff_seconds, max_failures]
      omega
    rw [this]

/-- Witness for C4: from a fresh state, the 7th consecutive failure still
sleeps the capped 300 seconds, and the 3rd sleeps 180 seconds. -/
theorem c4_backoff_linear_capped_witness :
    (failing_water_iterations fresh_state 7).2 = some (SleepKind.backoff 300) ∧
    (failing_water_iterations fresh_state 3).2 = some (SleepKind.backoff (60 * 3)) :=
  ⟨(c4_backoff_linear_capped fresh_state 7 rfl (by omega)).2.2 (by omega),
   (c4_backoff_linear_capped fresh_state 3 rfl (by omega)).2.1 (by omega)⟩

/-- C9: an iteration whose acquisition succeeds but yields zero readings
is treated exactly like a failure, for both feeds: the latest-data cache,
the shared `last_updated` and the stored fingerprint are untouched, no
Firestore write happens, and the consecutive-failure counter grows by
one, producing a backoff sleep — regardless of what the fingerprint of
the empty snapshot would be. -/
theorem c9_empty_snapshot_rejected (g : GlobalState) (search_time today : String)
    (dates_doc : Option (List String)) :
    scrape_water_iteration g (some ([], search_time)) today dates_doc =
      ({ g with water_failures := g.water_failures + 1 }, [],
       SleepKind.backoff (backoff_seconds (g.water_failures + 1))) ∧
    (scrape_water_iteration g (some ([], search_time)) today dates_doc).1.latest_water_data
        = g.latest_water_data ∧
    (scrape_water_iteration g (some ([], search_time)) today dates_doc).1.last_water_hash
        = g.last_water_hash ∧
    (scrape_water_iteration g (some ([], search_time)) today dates_doc).1.last_updated
        = g.last_updated ∧
    scrape_rainfall_iteration g (some ([], search_time)) today dates_doc =
      ({ g with rain_failures := g.rain_failures + 1 }, [],
       SleepKind.backoff (backoff_seconds (g.rain_failures + 1))) := by
  exact ⟨rfl, rfl, rfl, rfl, rfl⟩

/-- C5: a `date` query parameter that does not parse as a valid
`YYYY-MM-DD` calendar date yields the 400 bad-format error on both feeds;
a valid date with no stored document for it yields the distinct 404
not-found outcome, never the format error; `"2024-13-40"` is invalid; the
two outcomes carry different HTTP classes and can never coincide. -/
theorem c5_get_by_date_validation (date : String)
    (storeW : String → Option (List WaterReading × String))
    (storeR : String → Option (List RainReading × String))
    (latestW : Option (List WaterReading)) (latestR : Option (List RainReading))
    (lu : Option String) :
    (valid_date date = false →
        water_level_get (some date) storeW latestW lu =
          GetResult.badRequest ("Invalid date format. Please use YYYY-MM-DD") ∧
        rainfall_get (some date) storeR latestR lu =
          GetResult.badRequest ("Invalid date format. Please use YYYY-MM-DD")) ∧
    (valid_date date = true → storeW ("water_levels_" ++ date) = none →
        water_level_get (some date) storeW latestW lu =
          GetResult.notFound ("No data available for date " ++ date)) ∧
    (valid_date date = true → storeR ("rainfall_data_" ++ date) = none →
        rainfall_get (some date) storeR latestR lu =
          GetResult.notFound ("No data available for date " ++ date)) ∧
    valid_date ("2024-13-40") = false ∧
    (∀ m m' : String,
        http_code (GetResult.badRequest m : GetResult (List WaterReading)) = 400 ∧
        http_code (GetResult.notFound m' : GetResult (List WaterReading)) = 404 ∧
        (GetResult.badRequest m : GetResult (List WaterReading)) ≠
          GetResult.notFound m') := by
  refine ⟨fun h => ⟨?_, ?_⟩, fun h hs => ?_, fun h hs => ?_, by decide,
    fun m m' => ⟨rfl, rfl, by simp⟩⟩
  · simp [water_level_get, h]
  · simp [rainfall_get, h]
  · simp [water_level_get, h, hs]
  · simp [rainfall_get, h, hs]

/-- Witness for C5: `"2024-13-40"` gets the 400 format error and
`"2024-01-01"` with an empty store gets the 404 not-found. -/
theorem c5_get_by_date_validation_witness :
    water_level_get (some ("2024-13-40")) (fun _ => none) none none =
      GetResult.badRequest ("Invalid date format. Please use YYYY-MM-DD") ∧
    water_level_get (some ("2024-01-01")) (fun _ => none) none none =
      GetResult.notFound ("No data available for date " ++ "2024-01-01") :=
  ⟨((c5_get_by_date_validation ("2024-13-40") (fun _ => none) (fun _ => none)
      none none none).1 (by decide)).1,
   (c5_get_by_date_validation ("2024-01-01") (fun _ => none) (fun _ => none)
      none none none).2.1 (by decide) rfl⟩

/-- Adding a date whose stripped form is already present returns the
stripped originals: a no-op on the set of dates. -/
theorem update_dates_mem_noop (ds : List String) (d : String)
    (hmem : py_strip d ∈ ds.map py_strip) :
    update_dates_collection (some ds) d = ds.map py_strip := by
  simp only [update_dates_collection]
  rw [if_pos hmem]

/-- C6: `update_dates_collection` is idempotent up to whitespace
normalization: adding `s1` and then any `s2` with the same stripped form
leaves the dates array of the first call unchanged, that array holds
exactly one entry for the stripped date (provided the pre-existing array
held at most one, which every array this function produces does), and
adding a date whose stripped form is already present returns the stripped
originals — a no-op on the set of dates. -/
theorem c6_add_date_idempotent (existing : Option (List String)) (s1 s2 : String)
    (heq : py_strip s1 = py_strip s2)
    (hcount : ((existing.getD []).map py_strip).count (py_strip s1) ≤ 1) :
    update_dates_collection (some (update_dates_collection existing s1)) s2 =
      update_dates_collection existing s1 ∧
    (update_dates_collection existing s1).count (py_strip s1) = 1 ∧
    (∀ ds d, py_strip d ∈ ds.map py_strip →
        update_dates_collection (some ds) d = ds.map py_strip) := by
  refine ⟨?_, count_update_dates existing s1 hcount,
    fun ds d hmem => update_dates_mem_noop ds d hmem⟩
  have hm : py_strip s2 ∈ (update_dates_collection existing s1).map py_strip := by
    rw [map_py_strip_update, ← heq]
    exact mem_update_dates existing s1
  rw [update_dates_mem_noop _ _ hm, map_py_strip_update]

/-- Witness for C6: adding `" 2024-01-05 "` and then `"2024-01-05"` to an
index holding `" 2024-01-04 "` leaves one entry for 2024-01-05. -/
theorem c6_add_date_idempotent_witness :
    update_dates_collection
        (some (update_dates_collection (some [(" 2024-01-04 ")]) (" 2024-01-05 ")))
        ("2024-01-05") =
      update_dates_collection (some [(" 2024-01-04 ")]) (" 2024-01-05 ") ∧
    (update_dates_collection (some [(" 2024-01-04 ")]) (" 2024-01-05 ")).count
        (py_strip (" 2024-01-05 ")) = 1 :=
  ⟨(c6_add_date_idempotent (some [(" 2024-01-04 ")]) (" 2024-01-05 ") ("2024-01-05")
      (by decide) (by decide)).1,
   (c6_add_date_idempotent (some [(" 2024-01-04 ")]) (" 2024-01-05 ") ("2024-01-05")
      (by decide) (by decide)).2.1⟩

/-- C7 (as stated) is false on the code: with the run flag set and a
fresh `last_updated`, the health check reports `healthy` even though both
scraper threads are dead — the status never consults worker liveness, so
"healthy only if every worker is alive" does not hold, and no dead-worker
condition ever yields the unavailable status. -/
theorem c7_health_counterexample :
    health_check ⟨true, some 0, 0, false, false⟩ = (HealthStatus.healthy, 200) ∧
    (⟨true, some 0, 0, false, false⟩ : HealthInput).water_thread_alive = false ∧
    (⟨true, some 0, 0, false, false⟩ : HealthInput).rainfall_thread_alive = false := by
  decide

/-- C7 amended: the health status depends only on the run flag and the
age of the shared `last_updated` timestamp — `error` (HTTP 503) exactly
when the run flag is cleared; `warning` (HTTP 200) exactly when the flag
is set and a last update exists that is more than 600 seconds old;
`healthy` (HTTP 200) otherwise, including when no update has ever
happened; the thread-liveness booleans are echoed in the response but
never influence the status. -/
theorem c7_health_amended (h : HealthInput) :
    (health_check h = (HealthStatus.error, 503) ↔ h.scraping_active = false) ∧
    (health_check h = (HealthStatus.warning, 200) ↔
        h.scraping_active = true ∧ ∃ t, h.last_updated = some t ∧ 600 < h.now - t) ∧
    (health_check h = (HealthStatus.healthy, 200) ↔
        h.scraping_active = true ∧
          ∀ t, h.last_updated = some t → ¬ (600 < h.now - t)) ∧
    (∀ b1 b2,
        health_check { h with water_thread_alive := b1, rainfall_thread_alive := b2 }
          = health_check h) := by
  obtain ⟨sa, lu, now, w, r⟩ := h
  refine ⟨?_, ?_, ?_, fun b1 b2 => rfl⟩ <;>
    cases sa <;> rcases lu with _ | t <;> simp [health_check] <;>
      by_cases hd : 600 < now - t <;> simp [hd] <;> omega

/-- Witness for the amended C7 at concrete inputs: flag cleared gives the
503 error status; a 601-second-old update gives the warning status. -/
theorem c7_health_amended_witness :
    health_check ⟨false, none, 0, true, true⟩ = (HealthStatus.error, 503) ∧
    health_check ⟨true, some 0, 601, true, true⟩ = (HealthStatus.warning, 200) :=
  ⟨(c7_health_amended ⟨false, none, 0, true, true⟩).1.mpr rfl,
   (c7_health_amended ⟨true, some 0, 601, true, true⟩).2.1.mpr
     ⟨rfl, 0, rfl, by decide⟩⟩

set_option maxRecDepth 100000 in
/-- C8 (as stated) is false on the code: `last_updated` is one global
shared by both feeds, so promoting a first water snapshot changes the
`last_updated` that the rainfall feed's getLatest reports, even though
the rainfall data and fingerprint are untouched. -/
theorem c8_feed_counterexample :
    (scrape_water_iteration g1 (some ([sampleReadingA], ("2024-01-05 10:07")))
        ("2024-01-05") none).1.last_updated ≠ g1.last_updated ∧
    (scrape_water_iteration g1 (some ([sampleReadingA], ("2024-01-05 10:07")))
        ("2024-01-05") none).1.latest_rainfall_data = g1.latest_rainfall_data ∧
    (scrape_water_iteration g1 (some ([sampleReadingA], ("2024-01-05 10:07")))
        ("2024-01-05") none).1.last_rainfall_hash = g1.last_rainfall_hash ∧
    rainfall_get none (fun _ => none)
        (scrape_water_iteration g1 (some ([sampleReadingA], ("2024-01-05 10:07")))
          ("2024-01-05") none).1.latest_rainfall_data
        (scrape_water_iteration g1 (some ([sampleReadingA], ("2024-01-05 10:07")))
          ("2024-01-05") none).1.last_updated ≠
      rainfall_get none (fun _ => none) g1.latest_rainfall_data g1.last_updated := by
  decide

/-- C8 amended: each feed owns an independent snapshot cache, fingerprint
and failure counter — a water iteration never changes the rainfall feed's
data, fingerprint or counter, and vice versa — but the last-accepted-at
timestamp `last_updated` is a single shared global, so a promotion in one
feed does change the last-updated value the other feed's getLatest
returns. -/
theorem c8_feed_state_amended (g : GlobalState)
    (acqW : Option (List WaterReading × String))
    (acqR : Option (List RainReading × String))
    (today : String) (dd : Option (List String)) :
    ((scrape_water_iteration g acqW today dd).1.latest_rainfall_data =
        g.latest_rainfall_data ∧
     (scrape_water_iteration g acqW today dd).1.last_rainfall_hash =
        g.last_rainfall_hash ∧
     (scrape_water_iteration g acqW today dd).1.rain_failures = g.rain_failures) ∧
    ((scrape_rainfall_iteration g acqR today dd).1.latest_water_data =
        g.latest_water_data ∧
     (scrape_rainfall_iteration g acqR today dd).1.last_water_hash =
        g.last_water_hash ∧
     (scrape_rainfall_iteration g acqR today dd).1.water_failures =
        g.water_failures) := by
  constructor
  · rcases acqW with _ | ⟨data, st⟩
    · simp [scrape_water_iteration]
    · by_cases hd : data = [] <;>
        by_cases hh : g.last_water_hash ≠
          some (calculate_data_hash (py_str_water_data data)) <;>
        simp [scrape_water_iteration, hd, hh]
  · rcases acqR with _ | ⟨data, st⟩
    · simp [scrape_rainfall_iteration]
    · by_cases hd : data = [] <;>
        by_cases hh : g.last_rainfall_hash ≠
          some (calculate_data_hash (py_str_rain_data data)) <;>
        simp [scrape_rainfall_iteration, hd, hh]

set_option maxRecDepth 100000 in
/-- C1 (as stated) is false on the code: the change detector hashes
`str(data)` and every scraped row dict contains the capture timestamp in
its `timestamp` field, so two snapshots that agree on every reading field
except the capture timestamp produce different fingerprints — the digest
does not exclude the capture timestamp.  `sampleReadingA` and
`sampleReadingA2` agree on all seven data fields and differ only in the
capture timestamp, yet their fingerprints differ. -/
theorem c1_fingerprint_includes_timestamp :
    sampleReadingA2.station = sampleReadingA.station ∧
    sampleReadingA2.current_wl = sampleReadingA.current_wl ∧
    sampleReadingA2.wl_30min = sampleReadingA.wl_30min ∧
    sampleReadingA2.wl_1hr = sampleReadingA.wl_1hr ∧
    sampleReadingA2.alert_level = sampleReadingA.alert_level ∧
    sampleReadingA2.alarm_level = sampleReadingA.alarm_level ∧
    sampleReadingA2.critical_level = sampleReadingA.critical_level ∧
    sampleReadingA2.timestamp ≠ sampleReadingA.timestamp ∧
    calculate_data_hash (py_str_water_data [sampleReadingA2]) ≠
      calculate_data_hash (py_str_water_data [sampleReadingA]) := by
  decide

set_option maxRecDepth 100000 in
/-- C2 (as stated) is false on the code: after accepting
`[sampleReadingA]`, an iteration that re-acquires the same reading with
only a fresh capture timestamp (`sampleReadingA2`) computes a different
fingerprint, so it performs Firestore writes and rewrites the whole
latest-state cache — the promise of zero writes for content-identical
snapshots holds only when the capture timestamp is also unchanged (last
conjunct: re-acquiring the byte-identical snapshot performs no write and
leaves the cache untouched). -/
theorem c2_unchanged_content_new_timestamp_writes :
    sampleReadingA2.timestamp ≠ sampleReadingA.timestamp ∧
    sampleReadingA2.station = sampleReadingA.station ∧
    sampleReadingA2.current_wl = sampleReadingA.current_wl ∧
    sampleReadingA2.wl_30min = sampleReadingA.wl_30min ∧
    sampleReadingA2.wl_1hr = sampleReadingA.wl_1hr ∧
    sampleReadingA2.alert_level = sampleReadingA.alert_level ∧
    sampleReadingA2.alarm_level = sampleReadingA.alarm_level ∧
    sampleReadingA2.critical_level = sampleReadingA.critical_level ∧
    g0.last_water_hash =
      some (calculate_data_hash (py_str_water_data [sampleReadingA])) ∧
    (scrape_water_iteration g0 (some ([sampleReadingA2], ("2024-01-05 10:05")))
        ("2024-01-05") none).2.1 ≠ [] ∧
    (scrape_water_iteration g0 (some ([sampleReadingA2], ("2024-01-05 10:05")))
        ("2024-01-05") none).1.latest_water_data ≠ g0.latest_water_data ∧
    (scrape_water_iteration g0 (some ([sampleReadingA2], ("2024-01-05 10:05")))
        ("2024-01-05") none).1.last_updated ≠ g0.last_updated ∧
    (scrape_water_iteration g0 (some ([sampleReadingA2], ("2024-01-05 10:05")))
        ("2024-01-05") none).1.last_water_hash ≠ g0.last_water_hash ∧
    (scrape_water_iteration g0 (some ([sampleReadingA], ("2024-01-05 10:00")))
        ("2024-01-05") none).2.1 = [] ∧
    (scrape_water_iteration g0 (some ([sampleReadingA], ("2024-01-05 10:00")))
        ("2024-01-05") none).1 = { g0 with water_failures := 0 } := by
  decide
